import Mathlib

/-!
Shallow embedding of `theanets/activations.py` (the activation-function
subsystem: stateless function table, parametric variants, builder/composer).

Conventions of the embedding:

* Machine floats are idealized as exact rationals (`ℚ`); numpy float arrays
  become lists of rationals (so `0.1` is the exact rational `1/10`).
* Theano code builds symbolic expression graphs; the graph nodes used by
  `activations.py` are embedded as the inductive `TExpr`, viewed per element
  of a tensor.  Transcendental functions and axis reductions are opaque
  constructors; the purely arithmetic fragment gets an exact rational
  semantics (`seval`).
* A raised Python exception is an `Except.error`; resolution failures and
  configuration failures therefore show up in the result type.
* Every `theano.shared` allocation performed while building is tracked in a
  writer-style log (`List Param`) paired with the result, so frame
  properties ("nothing is allocated besides ...") are provable.
-/

/-- A Python value that can appear as a keyword argument in this module
(only the kinds exercised here: integers and strings). -/
inductive PyVal where
  | int (z : ℤ)
  | str (s : String)
deriving DecidableEq

/-- Python exceptions raised by `activations.py` (or by numpy inside it),
plus the unknown-activation error of the registry. -/
inductive PyErr where
  | typeError (msg : String)
  | keyError (key : String)
  | valueError (msg : String)
  | unknownActivation (key : String)
deriving DecidableEq

/-- The value of a Python `name` attribute: a plain string for function-table
entries and `Activation` instances, or a list of strings — the value the
`compose` helper in `build` actually assigns (`c.name = ['%s(%s)' % ...]`). -/
inductive PyName where
  | str (s : String)
  | list (l : List String)
deriving DecidableEq

/-- The value of a learnable shared tensor at allocation time (a numpy float
array, idealized as exact rationals): a vector or a matrix. -/
inductive TVal where
  | vec (v : List ℚ)
  | mat (m : List (List ℚ))
deriving DecidableEq

/-- A learnable shared tensor: `theano.shared(value, name=layer._fmt(...))`. -/
structure Param where
  name : String
  value : TVal
deriving DecidableEq

/-- The part of the `Layer` contract used by `activations.py`: its `size`
(number of units) and its `_fmt` naming function for named sub-tensors. -/
structure Layer where
  size : ℕ
  fmt : String → String

/-- A symbolic tensor expression, mirroring the theano graph nodes used in
`activations.py` (viewed per element for the elementwise operations).
`sharedRef` is a reference to a learnable shared tensor by its name.
Transcendental functions and axis reductions are opaque: they are built by
the code but never evaluated inside this module. -/
inductive TExpr where
  | lit (q : ℚ)
  | sharedRef (name : String)
  | add (a b : TExpr)
  | sub (a b : TExpr)
  | mul (a b : TExpr)
  | div (a b : TExpr)
  | absE (a : TExpr)
  | tanhE (a : TExpr)
  | sigmoidE (a : TExpr)
  | softplusE (a : TExpr)
  | expE (a : TExpr)
  | indexNone (a : TExpr)
  | maxLast (a : TExpr)
  | maxLastKeep (a : TExpr)
  | sumLastKeep (a : TExpr)
  | meanLastKeep (a : TExpr)
  | stdLastKeep (a : TExpr)
deriving DecidableEq

/-- An activation value: the `name` attribute, the `params` attribute
(`none` models a Python object with no `params` attribute at all), and the
transform, which maps an input tensor expression to an output tensor
expression — exactly what calling the activation does in theano. -/
structure Act where
  name : PyName
  params : Option (List Param)
  transform : TExpr → TExpr

/-- The first argument of `build`: a name string, or an already-constructed
activation (the `isinstance(name, Activation)` pass-through). -/
inductive BuildArg where
  | name (s : String)
  | act (a : Act)

/-- Python quotes a string with single quotes inside `str(list)`. -/
def pyQuote (s : String) : String := "\x27" ++ s ++ "\x27"

/-- Comma-join used by Python `str(list)`. -/
def pyJoin : List String → String
  | [] => ""
  | [s] => s
  | s :: rest => s ++ ", " ++ pyJoin rest

/-- Python `'%s' % name` for a `name` attribute: a string renders as itself,
a list renders as its `str()` (with single-quoted elements). -/
def pyStrOf : PyName → String
  | .str s => s
  | .list l => "[" ++ pyJoin (l.map pyQuote) ++ "]"

/-- The `softmax` helper of the module:
`z = exp(x - x.max(axis=-1, keepdims=True)); z / z.sum(axis=-1, keepdims=True)`. -/
def softmaxT (x : TExpr) : TExpr :=
  let z := TExpr.expE (TExpr.sub x (TExpr.maxLastKeep x))
  TExpr.div z (TExpr.sumLastKeep z)

/-- The stateless function table of `build` (the dict literal at lines 61-85),
keyed exactly as in the source; `.get(name)` is `Option`-valued. -/
def lookupTable : String → Option (TExpr → TExpr)
  | "tanh" => some (fun x => TExpr.tanhE x)
  | "logistic" => some (fun x => TExpr.sigmoidE x)
  | "sigmoid" => some (fun x => TExpr.sigmoidE x)
  | "softmax" => some softmaxT
  | "linear" => some (fun x => x)
  | "softplus" => some (fun x => TExpr.softplusE x)
  | "relu" => some (fun x => TExpr.div (TExpr.add x (TExpr.absE x)) (TExpr.lit 2))
  | "rect:max" => some (fun x =>
      TExpr.div (TExpr.sub (TExpr.add (TExpr.lit 1) x) (TExpr.absE (TExpr.sub x (TExpr.lit 1)))) (TExpr.lit 2))
  | "rect:minmax" => some (fun x =>
      TExpr.div (TExpr.sub (TExpr.add (TExpr.lit 1) (TExpr.absE x)) (TExpr.absE (TExpr.sub x (TExpr.lit 1)))) (TExpr.lit 2))
  | "norm:mean" => some (fun x => TExpr.sub x (TExpr.meanLastKeep x))
  | "norm:max" => some (fun x =>
      TExpr.div x (TExpr.add (TExpr.maxLastKeep (TExpr.absE x)) (TExpr.lit (1 / 1000000))))
  | "norm:std" => some (fun x =>
      TExpr.div x (TExpr.add (TExpr.stdLastKeep x) (TExpr.lit (1 / 1000000))))
  | "norm:z" => some (fun x =>
      TExpr.div (TExpr.sub x (TExpr.meanLastKeep x)) (TExpr.add (TExpr.stdLastKeep x) (TExpr.lit (1 / 1000000))))
  | _ => none

/-- `Prelu.__init__` / `Prelu.__call__`: allocates the learnable `leak` tensor
`theano.shared(np.ones((layer.size,)) * 0.1, name=layer._fmt("leak"))`,
appends it to `params`, and transforms
`x ↦ (x + abs(x)) / 2 + leak * (x - abs(x)) / 2`. -/
def preluInit (name : String) (L : Layer) (_kwargs : List (String × PyVal)) :
    List Param × Except PyErr Act :=
  let leak : Param := ⟨L.fmt "leak", .vec (List.replicate L.size (1 / 10))⟩
  ([leak],
   .ok { name := .str name
         params := some [leak]
         transform := fun x =>
           TExpr.add (TExpr.div (TExpr.add x (TExpr.absE x)) (TExpr.lit 2))
             (TExpr.div (TExpr.mul (TExpr.sharedRef (L.fmt "leak")) (TExpr.sub x (TExpr.absE x)))
               (TExpr.lit 2)) })

/-- `LGrelu.__init__` / `LGrelu.__call__`: allocates `gain`
(`np.ones((layer.size,))`) then `leak` (`np.ones((layer.size,)) * 0.1`),
appending each to `params` in that order, and transforms
`x ↦ gain * (x + abs(x)) / 2 + leak * (x - abs(x)) / 2`. -/
def lgreluInit (name : String) (L : Layer) (_kwargs : List (String × PyVal)) :
    List Param × Except PyErr Act :=
  let gain : Param := ⟨L.fmt "gain", .vec (List.replicate L.size 1)⟩
  let leak : Param := ⟨L.fmt "leak", .vec (List.replicate L.size (1 / 10))⟩
  ([gain, leak],
   .ok { name := .str name
         params := some [gain, leak]
         transform := fun x =>
           TExpr.add
             (TExpr.div (TExpr.mul (TExpr.sharedRef (L.fmt "gain")) (TExpr.add x (TExpr.absE x)))
               (TExpr.lit 2))
             (TExpr.div (TExpr.mul (TExpr.sharedRef (L.fmt "leak")) (TExpr.sub x (TExpr.absE x)))
               (TExpr.lit 2)) })

/-- `Maxout.__init__` / `Maxout.__call__`: reads `kwargs["pieces"]` (a missing
key raises `KeyError`), allocates `slope = np.ones((layer.size, pieces))` and
`intercept = np.ones((pieces,))` as shared tensors, appending slope then
intercept to `params`.  `np.ones` raises `TypeError` when the dimension is not
an integer and `ValueError` when it is negative; a zero piece count is a legal
numpy shape and raises nothing.  The transform is
`(x[..., None] * slope + intercept).max(axis=-1)`. -/
def maxoutInit (name : String) (L : Layer) (kwargs : List (String × PyVal)) :
    List Param × Except PyErr Act :=
  match List.lookup "pieces" kwargs with
  | none => ([], .error (.keyError "pieces"))
  | some (.str _) => ([], .error (.typeError "object cannot be interpreted as an integer"))
  | some (.int z) =>
    if z < 0 then ([], .error (.valueError "negative dimensions are not allowed"))
    else
      let slope : Param := ⟨L.fmt "slope", .mat (List.replicate L.size (List.replicate z.toNat 1))⟩
      let intercept : Param := ⟨L.fmt "intercept", .vec (List.replicate z.toNat 1)⟩
      ([slope, intercept],
       .ok { name := .str name
             params := some [slope, intercept]
             transform := fun x =>
               TExpr.maxLast
                 (TExpr.add (TExpr.mul (TExpr.indexNone x) (TExpr.sharedRef (L.fmt "slope")))
                   (TExpr.sharedRef (L.fmt "intercept"))) })

/-- The registry keys of the parametric variants.  Modelled from the spec:
`util.Registrar` (in `theanets.util`, not under `src/`) registers every
`Activation` subclass under its canonical key (its type identity,
lower-cased) plus any `__extra_registration_keys__` aliases; the three
variants of `activations.py` give the keys below. -/
def registryKeys : List String :=
  ["prelu", "leaky-relu", "lgrelu", "leaky-gain-relu", "maxout"]

/-- Modelled from the spec: `Activation.build(key, name, layer, **kwargs)` is
provided by `util.Registrar` (not under `src/`).  Per the spec it resolves the
key among the registered variants and their aliases, instantiates the variant
constructor on a hit, and otherwise fails with an unknown-activation error
carrying the offending key. -/
def activationBuild (key : String) (L : Layer) (kwargs : List (String × PyVal)) :
    List Param × Except PyErr Act :=
  if key = "prelu" ∨ key = "leaky-relu" then preluInit key L kwargs
  else if key = "lgrelu" ∨ key = "leaky-gain-relu" then lgreluInit key L kwargs
  else if key = "maxout" then maxoutInit key L kwargs
  else ([], .error (.unknownActivation key))

/-- The message of the `TypeError` Python raises when the recursive
`build(n)` call inside the `'+'` branch omits the required positional
argument `layer`. -/
def missingLayerMsg : String :=
  "build() missing 1 required positional argument: layer"

/-- The `compose` helper local to `build`: `c = lambda z: b(a(z))`, then
`c.name = ['%s(%s)' % (b.name, a.name)]` — note the assigned name is a
one-element Python list, and no `params` attribute is ever assigned to `c`
(modelled as `params := none`). -/
def compose (a b : Act) : Act :=
  { name := .list [pyStrOf b.name ++ "(" ++ pyStrOf a.name ++ ")"]
    params := none
    transform := fun z => b.transform (a.transform z) }

/-- The fold performed by `functools.reduce(compose, items)` over the results
of the lazily-evaluated sub-builds: once an exception propagates, no further
item of the generator is consumed. -/
def composeFold (acc : List Param × Except PyErr Act) :
    List (List Param × Except PyErr Act) → List Param × Except PyErr Act
  | [] => acc
  | r :: rs =>
    match acc with
    | (la, .error e) => (la, .error e)
    | (la, .ok a) =>
      match r with
      | (lb, .error e) => (la ++ lb, .error e)
      | (lb, .ok b) => composeFold (la ++ lb, .ok (compose a b)) rs

/-- `functools.reduce(compose, items)` with no initial value: raises
`TypeError` on an empty iterable, otherwise folds from the first item. -/
def reduceCompose : List (List Param × Except PyErr Act) → List Param × Except PyErr Act
  | [] => ([], .error (.typeError "reduce() of empty iterable with no initial value"))
  | r :: rs => composeFold r rs

/-- Python `name.split(sep)` for the single-character separator used here,
over the character list of the string (`"a+b"` gives `["a", "b"]` and `""`
gives `[""]`, as in Python). -/
def splitOnChar (c : Char) : List Char → List (List Char)
  | [] => [[]]
  | a :: rest =>
    match splitOnChar c rest with
    | [] => [[]]
    | h :: t => if a = c then [] :: h :: t else (a :: h) :: t

/-- `build(name, layer, **kwargs)` (lines 35-90).  The `layer` argument is a
required positional argument, so a call that omits it — which is what the
recursive `build(n)` calls of the `'+'` branch do — raises `TypeError` at
argument binding, before the body runs; this is the `none` case.  The `fuel`
only bounds the recursion for Lean's termination checker: since every
recursive call omits `layer`, any positive fuel yields the same result.
Order of the body, as in the source: `isinstance` pass-through, `'+'`
composition via `functools.reduce`, function-table lookup (which tags the
matched callable with `name` and an empty `params`), then
`Activation.build`. -/
def buildFuel : ℕ → BuildArg → Option Layer → List (String × PyVal) →
    List Param × Except PyErr Act
  | _, _, none, _ => ([], .error (.typeError missingLayerMsg))
  | _, .act a, some _, _ => ([], .ok a)
  | fuel + 1, .name n, some L, kwargs =>
    if (n.data).contains '+' then
      reduceCompose (((splitOnChar '+' n.data).map String.mk).map
        (fun p => buildFuel fuel (.name p) none []))
    else
      match lookupTable n with
      | some t => ([], .ok { name := .str n, params := some [], transform := t })
      | none => activationBuild n L kwargs
  | 0, .name _, some _, _ => ([], .error (.typeError missingLayerMsg))

/-- The public entry point `build`. -/
def build (arg : BuildArg) (layer : Option Layer) (kwargs : List (String × PyVal)) :
    List Param × Except PyErr Act :=
  buildFuel 1 arg layer kwargs

/-- A placeholder activation, used only to make `builtActL` total. -/
def dummyAct : Act :=
  { name := .str "", params := none, transform := fun x => x }

/-- The activation successfully returned by `build(name, layer)` (the
placeholder on failure). -/
def builtActL (L : Layer) (n : String) : Act :=
  match (build (.name n) (some L) []).2 with
  | .ok a => a
  | .error _ => dummyAct

/-- A concrete three-unit layer used for witnesses and counterexamples. -/
def L0 : Layer := ⟨3, fun s => "l1." ++ s⟩

/-- A concrete assignment of shared-tensor values used in witnesses: every
shared tensor element reads as `1/10`. -/
def sh0 : String → ℚ := fun _ => 1 / 10

/-- Whether an `Except` result is a success. -/
def exceptOk {ε α : Type} : Except ε α → Bool
  | .ok _ => true
  | .error _ => false

/-- Exact rational semantics of the arithmetic fragment of `TExpr`, per
tensor element: `sh` gives the per-element value of each shared tensor.
Transcendental functions and axis reductions have no exact rational
semantics and evaluate to `none`.  (Division only occurs with the nonzero
literal divisor `2` in the expressions this is applied to.) -/
def seval (sh : String → ℚ) : TExpr → Option ℚ
  | .lit q => some q
  | .sharedRef n => some (sh n)
  | .add a b =>
    match seval sh a, seval sh b with
    | some u, some v => some (u + v)
    | _, _ => none
  | .sub a b =>
    match seval sh a, seval sh b with
    | some u, some v => some (u - v)
    | _, _ => none
  | .mul a b =>
    match seval sh a, seval sh b with
    | some u, some v => some (u * v)
    | _, _ => none
  | .div a b =>
    match seval sh a, seval sh b with
    | some u, some v => some (u / v)
    | _, _ => none
  | .absE a =>
    match seval sh a with
    | some u => some (abs u)
    | none => none
  | _ => none

/-- numpy `.max(axis=-1)` on one row: the maximum of the row, `none` for a
zero-size reduction (which numpy rejects). -/
def npMaxLast1 : List ℚ → Option ℚ
  | [] => none
  | h :: t => some (t.foldl max h)

/-- numpy `.max(axis=-1)` applied to every row of a matrix. -/
def npMaxLastRows : List (List ℚ) → Option (List ℚ)
  | [] => some []
  | r :: rs =>
    match npMaxLast1 r, npMaxLastRows rs with
    | some h, some t => some (h :: t)
    | _, _ => none

/-- Numeric semantics of `Maxout.__call__` for a 1-D input `x` (line 251):
`(x[..., None] * self.slope + self.intercept).max(axis=-1)` under numpy
broadcasting — `x[..., None]` has shape `(n, 1)`, multiplying by the
`(n, k)` slope scales row `i` by `x i`, adding the `(k,)` intercept is
row-wise, and the maximum is taken over the piece axis. -/
def maxoutCall (slope : List (List ℚ)) (intercept : List ℚ) (x : List ℚ) :
    Option (List ℚ) :=
  npMaxLastRows
    (((x.zipWith (fun xi row => row.map (fun m => xi * m)) slope)).map
      (fun row => List.zipWith (· + ·) row intercept))

/-! ### Helper lemmas -/

theorem composeFold_error (l : List (List Param × Except PyErr Act)) (la : List Param) (e : PyErr) :
    composeFold (la, .error e) l = (la, .error e) := by
  cases l <;> rfl

theorem buildFuel_noLayer (k : ℕ) (arg : BuildArg) (kw : List (String × PyVal)) :
    buildFuel k arg none kw = ([], .error (.typeError missingLayerMsg)) := by
  cases k <;> cases arg <;> rfl

theorem reduceCompose_noLayer (l : List String) :
    ∃ e, reduceCompose (l.map (fun p => buildFuel 0 (.name p) none [])) = ([], .error e) := by
  cases l with
  | nil => exact ⟨_, rfl⟩
  | cons p ps =>
    refine ⟨.typeError missingLayerMsg, ?_⟩
    show composeFold (buildFuel 0 (.name p) none []) _ = _
    rw [buildFuel_noLayer, composeFold_error]

theorem reduceCompose_constErr (l : List String) :
    ∃ e, reduceCompose (l.map (fun _ =>
        (([], Except.error (PyErr.typeError missingLayerMsg)) : List Param × Except PyErr Act)))
      = ([], .error e) := by
  cases l with
  | nil => exact ⟨_, rfl⟩
  | cons p ps =>
    refine ⟨.typeError missingLayerMsg, ?_⟩
    show composeFold ([], .error (.typeError missingLayerMsg)) _ = _
    rw [composeFold_error]

theorem zipWith_add_map_mul (xi : ℚ) (row intercept : List ℚ) :
    List.zipWith (· + ·) (row.map (fun m => xi * m)) intercept
      = List.zipWith (fun m b => m * xi + b) row intercept := by
  induction row generalizing intercept with
  | nil => simp
  | cons m ms ih =>
    cases intercept with
    | nil => simp
    | cons b bs => simp [ih, mul_comm]

theorem maxout_build_reduce (L : Layer) (p : ℕ) :
    build (.name "maxout") (some L) [("pieces", PyVal.int (p : ℤ))]
      = ([⟨L.fmt "slope", TVal.mat (List.replicate L.size (List.replicate p 1))⟩,
          ⟨L.fmt "intercept", TVal.vec (List.replicate p 1)⟩],
         .ok { name := .str "maxout"
               params := some
                 [⟨L.fmt "slope", TVal.mat (List.replicate L.size (List.replicate p 1))⟩,
                  ⟨L.fmt "intercept", TVal.vec (List.replicate p 1)⟩]
               transform := fun x =>
                 TExpr.maxLast
                   (TExpr.add (TExpr.mul (TExpr.indexNone x) (TExpr.sharedRef (L.fmt "slope")))
                     (TExpr.sharedRef (L.fmt "intercept"))) }) := by
  show maxoutInit "maxout" L [("pieces", PyVal.int (p : ℤ))] = _
  unfold maxoutInit
  have hbeq : ("pieces" == "pieces") = true := rfl
  simp only [List.lookup, hbeq, if_neg (Int.not_lt.mpr (Int.natCast_nonneg p)),
    Int.toNat_natCast]

/-! ### Claim theorems -/

/-- C1: the claim says `build("tanh+relu", layer)` returns an activation whose
transform is `relu ∘ tanh`.  In the source, the `'+'` branch calls `build(n)`
for each sub-name *without the required positional `layer` argument*
(line 60: `build(n) for n in name.split('+')`), so Python raises `TypeError`
on the first sub-build and no composed activation is ever returned.  This
theorem evaluates the embedded code at the failing input: for every layer and
kwargs, `build "tanh+relu"` is the missing-argument `TypeError`, with an
empty allocation log. -/
theorem build_composite_raises_typeError (L : Layer) (kw : List (String × PyVal)) :
    build (.name "tanh+relu") (some L) kw
      = ([], .error (.typeError missingLayerMsg)) := rfl

/-- C2: the claim says a composed activation's learnable-parameter list is
`a.params ++ b.params`.  In the source, `compose` never assigns a `params`
attribute to the composed closure at all (lines 55-58), so the composed
object has no parameter list (embedded as `params = none`) — and `build` of
any `'+'`-joined spec (e.g. `"lgrelu+prelu"`, which the claim's example
needs) raises `TypeError` even before composing, because the recursive
sub-builds omit the required `layer` argument. -/
theorem compose_drops_params :
    ((compose (builtActL L0 "lgrelu") (builtActL L0 "prelu")).params = none) ∧
    (∀ a b : Act, (compose a b).params = none) ∧
    (∀ (L : Layer) (kw : List (String × PyVal)),
        build (.name "lgrelu+prelu") (some L) kw
          = ([], .error (.typeError missingLayerMsg))) :=
  ⟨rfl, fun _ _ => rfl, fun _ _ => rfl⟩

/-- C3: the claim says a composed activation's name is the *string*
`"<b.name>(<a.name>)"`.  In the source, `compose` assigns
`c.name = ['%s(%s)' % (b.name, a.name)]` (line 57) — a one-element Python
*list* containing that string, not the string itself, contradicting the
`name : str` contract documented on the `Activation` class.  Composing the
table's tanh and relu activations yields the list `["relu(tanh)"]`. -/
theorem compose_name_is_singleton_list :
    (∀ a b : Act, (compose a b).name
        = PyName.list [pyStrOf b.name ++ "(" ++ pyStrOf a.name ++ ")"]) ∧
    ((compose (builtActL L0 "tanh") (builtActL L0 "relu")).name
        = PyName.list ["relu(tanh)"]) :=
  ⟨fun _ _ => rfl, rfl⟩

/-- C4: building by name is side-effect-free beyond the returned activation —
every `theano.shared` allocation performed during a successful `build(name,
layer, **kwargs)` ends up in the returned activation's `params` list, and the
returned `params` is exactly the allocation log (nothing is allocated outside
the returned activation).  Transforms themselves are pure expression builders
(`__call__` bodies only construct graph nodes), which the embedding reflects
by making `transform` a function `TExpr → TExpr`. -/
theorem build_allocations_are_returned_params (n : String) (L : Layer)
    (kw : List (String × PyVal)) (log : List Param) (act : Act)
    (h : build (.name n) (some L) kw = (log, .ok act)) :
    act.params = some log := by
  simp only [build, buildFuel] at h
  by_cases hc : (n.data).contains '+' = true
  · rw [if_pos hc] at h
    obtain ⟨e, he⟩ := reduceCompose_constErr ((splitOnChar '+' n.data).map String.mk)
    rw [he] at h
    simp at h
  · rw [if_neg hc] at h
    split at h
    · simp only [Prod.mk.injEq, Except.ok.injEq] at h
      obtain ⟨h4, h5⟩ := h
      subst h4; subst h5; rfl
    · unfold activationBuild at h
      split_ifs at h with h1 h2 h3
      · simp only [preluInit, Prod.mk.injEq, Except.ok.injEq] at h
        obtain ⟨h4, h5⟩ := h
        subst h4; subst h5; rfl
      · simp only [lgreluInit, Prod.mk.injEq, Except.ok.injEq] at h
        obtain ⟨h4, h5⟩ := h
        subst h4; subst h5; rfl
      · unfold maxoutInit at h
        split at h
        · simp at h
        · simp at h
        · split at h
          · simp at h
          · simp only [Prod.mk.injEq, Except.ok.injEq] at h
            obtain ⟨h4, h5⟩ := h
            subst h4; subst h5; rfl
      · simp at h

/-- Witness for C4 at a concrete input: building `"prelu"` on the concrete
three-unit layer allocates exactly the returned `leak` parameter. -/
theorem build_allocations_are_returned_params_witness :
    (builtActL L0 "prelu").params
      = some [⟨L0.fmt "leak", TVal.vec (List.replicate L0.size (1 / 10))⟩] :=
  build_allocations_are_returned_params "prelu" L0 []
    [⟨L0.fmt "leak", TVal.vec (List.replicate L0.size (1 / 10))⟩]
    (builtActL L0 "prelu") rfl

/-- C5 counterexample: the claim says Maxout construction fails for a
non-positive piece count, but the code performs no validation — a zero piece
count is a legal numpy shape, so construction *succeeds* at `pieces = 0`,
returning a slope of shape `(3, 0)` and an empty intercept. -/
theorem maxout_pieces_zero_accepted :
    exceptOk ((build (.name "maxout") (some L0) [("pieces", PyVal.int 0)]).2) = true ∧
    ((build (.name "maxout") (some L0) [("pieces", PyVal.int 0)]).2).map Act.params
      = .ok (some [⟨"l1.slope", TVal.mat [[], [], []]⟩, ⟨"l1.intercept", TVal.vec []⟩]) :=
  ⟨rfl, rfl⟩

/-- C5 (amended): Maxout construction fails at construction time with a
`KeyError` when `pieces` is absent, a `ValueError` (from the numpy
allocation) when `pieces` is negative, and a `TypeError` when `pieces` is
not an integer; in each case nothing is allocated.  (A *zero* piece count,
by contrast, is accepted at construction — see the counterexample.) -/
theorem maxout_config_errors :
    (∀ (L : Layer) (kw : List (String × PyVal)), List.lookup "pieces" kw = none →
        build (.name "maxout") (some L) kw = ([], .error (.keyError "pieces"))) ∧
    (∀ (L : Layer) (z : ℤ), z < 0 →
        build (.name "maxout") (some L) [("pieces", PyVal.int z)]
          = ([], .error (.valueError "negative dimensions are not allowed"))) ∧
    (∀ (L : Layer) (s : String),
        build (.name "maxout") (some L) [("pieces", PyVal.str s)]
          = ([], .error (.typeError "object cannot be interpreted as an integer"))) := by
  refine ⟨?_, ?_, fun L s => rfl⟩
  · intro L kw hkw
    show maxoutInit "maxout" L kw = _
    unfold maxoutInit
    rw [hkw]
  · intro L z hz
    show maxoutInit "maxout" L [("pieces", PyVal.int z)] = _
    unfold maxoutInit
    have hbeq : ("pieces" == "pieces") = true := rfl
    simp only [List.lookup, hbeq, if_pos hz]

/-- Witness for C5's amended theorem: the three construction errors at
concrete inputs on the concrete layer. -/
theorem maxout_config_errors_witness :
    build (.name "maxout") (some L0) [] = ([], .error (.keyError "pieces")) ∧
    build (.name "maxout") (some L0) [("pieces", PyVal.int (-2))]
      = ([], .error (.valueError "negative dimensions are not allowed")) ∧
    build (.name "maxout") (some L0) [("pieces", PyVal.str "two")]
      = ([], .error (.typeError "object cannot be interpreted as an integer")) :=
  ⟨maxout_config_errors.1 L0 [] rfl,
   maxout_config_errors.2.1 L0 (-2) (by decide),
   maxout_config_errors.2.2 L0 "two"⟩

/-- C6: a plain key (no `'+'` separator) matching neither the stateless
function table nor the registry makes `build` fail with the
unknown-activation error carrying the offending key, and the allocation log
of the call is empty — no learnable tensor is allocated before the
failure. -/
theorem build_unknown_key_fails (key : String) (L : Layer) (kw : List (String × PyVal))
    (hplus : (key.data).contains '+' = false)
    (htable : lookupTable key = none)
    (hreg : key ∉ registryKeys) :
    build (.name key) (some L) kw = ([], .error (.unknownActivation key)) := by
  simp only [registryKeys, List.mem_cons, List.not_mem_nil, or_false] at hreg
  push_neg at hreg
  obtain ⟨r1, r2, r3, r4, r5⟩ := hreg
  have hplus' : ((key.data).contains '+') ≠ true := by rw [hplus]; exact Bool.false_ne_true
  simp only [build, buildFuel]
  rw [if_neg hplus', htable]
  show activationBuild key L kw = _
  unfold activationBuild
  rw [if_neg (by tauto), if_neg (by tauto), if_neg r5]

/-- Witness for C6: the unknown key `"bogus"` on the concrete layer. -/
theorem build_unknown_key_fails_witness :
    build (.name "bogus") (some L0) [] = ([], .error (.unknownActivation "bogus")) :=
  build_unknown_key_fails "bogus" L0 [] rfl rfl (by decide)

/-- C7: Maxout allocates a learnable slope of shape (layer size × pieces) and
an intercept of shape (pieces,), both initialized to all ones, intercept
shared across units; its transform computes, per unit `i`, the maximum over
pieces `k` of `slope[i,k] * x[i] + intercept[k]`; and with `pieces = 2`,
`slope = [[0, 1]]`, `intercept = [0, 0]` on a single unit it is the plain
rectifier `max 0 x`. -/
theorem maxout_alloc_and_transform :
    (∀ (L : Layer) (p : ℕ),
        ((build (.name "maxout") (some L) [("pieces", PyVal.int (p : ℤ))]).2).map Act.params
          = .ok (some
              [⟨L.fmt "slope", TVal.mat (List.replicate L.size (List.replicate p 1))⟩,
               ⟨L.fmt "intercept", TVal.vec (List.replicate p 1)⟩])) ∧
    (∀ (slope : List (List ℚ)) (intercept x : List ℚ),
        maxoutCall slope intercept x
          = npMaxLastRows ((x.zip slope).map
              (fun u => List.zipWith (fun m b => m * u.1 + b) u.2 intercept))) ∧
    (∀ q : ℚ, maxoutCall [[0, 1]] [0, 0] [q] = some [max 0 q]) := by
  refine ⟨?_, ?_, ?_⟩
  · intro L p
    rw [maxout_build_reduce]
    rfl
  · intro slope intercept x
    unfold maxoutCall
    congr 1
    induction x generalizing slope with
    | nil => simp
    | cons xi xs ih =>
      cases slope with
      | nil => simp
      | cons r rs =>
        simp only [List.zipWith_cons_cons, List.zip_cons_cons, List.map_cons]
        rw [zipWith_add_map_mul, ih]
  · intro q
    show npMaxLastRows [List.zipWith (· + ·) [q * 0, q * 1] [0, 0]] = _
    simp [npMaxLastRows, npMaxLast1]

/-- C8: a leaky-slope rectifier (`Prelu`) built on layer `L` has exactly one
learnable tensor, `leak`, of shape `(L.size,)` with every entry initially
`0.1`; evaluating its transform per element, the result is `x` for
non-negative `x` and `leak * x` for negative `x` (where `sh` gives the
current per-element value of the `leak` tensor). -/
theorem prelu_shape_init_semantics (L : Layer) (sh : String → ℚ) (x : ℚ) :
    ((build (.name "prelu") (some L) []).2 = .ok (builtActL L "prelu")) ∧
    ((builtActL L "prelu").params
        = some [⟨L.fmt "leak", TVal.vec (List.replicate L.size (1 / 10))⟩]) ∧
    (0 ≤ x → seval sh ((builtActL L "prelu").transform (.lit x)) = some x) ∧
    (x < 0 → seval sh ((builtActL L "prelu").transform (.lit x))
        = some (sh (L.fmt "leak") * x)) := by
  have hval : seval sh ((builtActL L "prelu").transform (.lit x))
      = some ((x + abs x) / 2 + sh (L.fmt "leak") * (x - abs x) / 2) := rfl
  refine ⟨rfl, rfl, ?_, ?_⟩
  · intro h
    rw [hval, abs_of_nonneg h, Option.some.injEq]
    ring
  · intro h
    rw [hval, abs_of_nonpos (le_of_lt h), Option.some.injEq]
    ring

/-- Witness for C8 at concrete inputs: on the concrete three-unit layer
with every `leak` element reading `1/10`, the transform is the identity at
`x = 5` and scales by the leak at `x = -2`. -/
theorem prelu_shape_init_semantics_witness :
    seval sh0 ((builtActL L0 "prelu").transform (.lit 5)) = some 5 ∧
    seval sh0 ((builtActL L0 "prelu").transform (.lit (-2)))
      = some (sh0 (L0.fmt "leak") * (-2)) :=
  ⟨(prelu_shape_init_semantics L0 sh0 5).2.2.1 (by decide),
   (prelu_shape_init_semantics L0 sh0 (-2)).2.2.2 (by decide)⟩

/-- C9: per element, the `rect:max` transform `(1 + x - |x - 1|)/2` equals
`x` for `x ≤ 1` and `1` for `x > 1`, and the `rect:minmax` transform
`(1 + |x| - |x - 1|)/2` equals `0` for `x < 0`, `x` for `0 ≤ x ≤ 1`, and
`1` for `x > 1` — evaluated on the very expressions the function table
builds. -/
theorem rect_clip_semantics (x : ℚ) (sh : String → ℚ) :
    ((build (.name "rect:max") (some L0) []).2 = .ok (builtActL L0 "rect:max")) ∧
    (x ≤ 1 → seval sh ((builtActL L0 "rect:max").transform (.lit x)) = some x) ∧
    (1 < x → seval sh ((builtActL L0 "rect:max").transform (.lit x)) = some 1) ∧
    ((build (.name "rect:minmax") (some L0) []).2 = .ok (builtActL L0 "rect:minmax")) ∧
    (x < 0 → seval sh ((builtActL L0 "rect:minmax").transform (.lit x)) = some 0) ∧
    (0 ≤ x → x ≤ 1 → seval sh ((builtActL L0 "rect:minmax").transform (.lit x)) = some x) ∧
    (1 < x → seval sh ((builtActL L0 "rect:minmax").transform (.lit x)) = some 1) := by
  have hmax : seval sh ((builtActL L0 "rect:max").transform (.lit x))
      = some ((1 + x - abs (x - 1)) / 2) := rfl
  have hminmax : seval sh ((builtActL L0 "rect:minmax").transform (.lit x))
      = some ((1 + abs x - abs (x - 1)) / 2) := rfl
  refine ⟨rfl, ?_, ?_, rfl, ?_, ?_, ?_⟩
  · intro h
    rw [hmax, abs_of_nonpos (by linarith), Option.some.injEq]
    ring
  · intro h
    rw [hmax, abs_of_nonneg (by linarith), Option.some.injEq]
    ring
  · intro h
    rw [hminmax, abs_of_nonpos (le_of_lt h), abs_of_nonpos (by linarith), Option.some.injEq]
    ring
  · intro h0 h1
    rw [hminmax, abs_of_nonneg h0, abs_of_nonpos (by linarith), Option.some.injEq]
    ring
  · intro h
    rw [hminmax, abs_of_nonneg (by linarith), abs_of_nonneg (by linarith), Option.some.injEq]
    ring

/-- Witness for C9 at concrete inputs on both sides of each clip region. -/
theorem rect_clip_semantics_witness :
    seval sh0 ((builtActL L0 "rect:max").transform (.lit 0)) = some 0 ∧
    seval sh0 ((builtActL L0 "rect:max").transform (.lit 2)) = some 1 ∧
    seval sh0 ((builtActL L0 "rect:minmax").transform (.lit (-1))) = some 0 ∧
    seval sh0 ((builtActL L0 "rect:minmax").transform (.lit 1)) = some 1 ∧
    seval sh0 ((builtActL L0 "rect:minmax").transform (.lit 2)) = some 1 :=
  ⟨(rect_clip_semantics 0 sh0).2.1 (by decide),
   (rect_clip_semantics 2 sh0).2.2.1 (by decide),
   (rect_clip_semantics (-1) sh0).2.2.2.2.1 (by decide),
   (rect_clip_semantics 1 sh0).2.2.2.2.2.1 (by decide) (by decide),
   (rect_clip_semantics 2 sh0).2.2.2.2.2.2 (by decide)⟩

/-- C10: every Maxout construction's learnable-parameter list is exactly
`[slope, intercept]` in that order — slope appended first, intercept
second. -/
theorem maxout_params_order (L : Layer) (p : ℕ) :
    ∃ slope intercept : Param,
      ((build (.name "maxout") (some L) [("pieces", PyVal.int (p : ℤ))]).2).map Act.params
          = .ok (some [slope, intercept]) ∧
      slope.name = L.fmt "slope" ∧ intercept.name = L.fmt "intercept" := by
  refine ⟨⟨L.fmt "slope", TVal.mat (List.replicate L.size (List.replicate p 1))⟩,
    ⟨L.fmt "intercept", TVal.vec (List.replicate p 1)⟩, ?_, rfl, rfl⟩
  rw [maxout_build_reduce]
  rfl
